import Mathlib

/-!
Verification of the Difix3D alignment tools.

This file models the two scripts of the repository:
  * `examples/compute_dataset_alignment.py` — combines the two normalization
    transforms returned by the external COLMAP parser into a single alignment
    transform `align = train_transform @ inv(subset_transform)` and writes the
    three matrices to an artifact file;
  * `examples/regenerate_alignments.py` — walks a results tree discovering
    existing alignment artifacts, recovers the `test_every` cadence from the
    `cfg.yml` sidecar, and regenerates each artifact with optional backup,
    dry-run support and per-record failure isolation.

Matrices are modelled over ℚ (the floating point arithmetic of the scripts is
modelled exactly); the filesystem is modelled as an association list from
paths (lists of name components) to file contents.
-/

set_option autoImplicit false
set_option linter.unusedVariables false

namespace Difix3D

/-! ## Filesystem model -/

/-- A filesystem path, as a list of name components. -/
abbrev FPath := List String

/-- A filesystem: a finite map from paths to file contents of type `β`. -/
abbrev Fs (β : Type) : Type := List (FPath × β)

/-- Look up the contents of the file at `p`, if it exists. -/
def fsLookup {β : Type} : Fs β → FPath → Option β
  | [], _ => none
  | (q, b) :: rest, p => if q = p then some b else fsLookup rest p

/-- Write contents `b` at path `p` (creating or overwriting the file). -/
def fsWrite {β : Type} : Fs β → FPath → β → Fs β
  | [], p, b => [(p, b)]
  | (q, c) :: rest, p, b => if q = p then (p, b) :: rest else (q, c) :: fsWrite rest p b

/-- `shutil.copy2 src dst`: copy the contents of `src` to `dst` (the script
only calls it after checking that `src` exists). -/
def fsCopy {β : Type} (fs : Fs β) (src dst : FPath) : Fs β :=
  match fsLookup fs src with
  | none => fs
  | some b => fsWrite fs dst b

theorem fsLookup_fsWrite_self {β : Type} (fs : Fs β) (p : FPath) (b : β) :
    fsLookup (fsWrite fs p b) p = some b := by
  induction fs with
  | nil => simp [fsWrite, fsLookup]
  | cons hd tl ih =>
    obtain ⟨q, c⟩ := hd
    by_cases hq : q = p
    · simp [fsWrite, fsLookup, hq]
    · simp [fsWrite, fsLookup, hq, ih]

theorem fsLookup_fsWrite_ne {β : Type} (fs : Fs β) (p q : FPath) (b : β) (h : q ≠ p) :
    fsLookup (fsWrite fs p b) q = fsLookup fs q := by
  induction fs with
  | nil => simp [fsWrite, fsLookup, Ne.symm h]
  | cons hd tl ih =>
    obtain ⟨r, c⟩ := hd
    by_cases hr : r = p
    · subst hr
      simp [fsWrite, fsLookup, h, Ne.symm h]
    · simp [fsWrite, fsLookup, hr, ih]

/-! ## The alignment computation (`compute_dataset_alignment.py`) -/

/-- A 4×4 homogeneous transform. -/
abbrev Mat4 := Matrix (Fin 4) (Fin 4) ℚ

/-- Opaque identifier for a dataset directory handed to the external parser. -/
abbrev Dir := Nat

/-- Computable inverse of a 4×4 matrix, `det⁻¹ • adjugate`; agrees with
`np.linalg.inv` on every nonsingular matrix. -/
def mat_inv (S : Mat4) : Mat4 := S.det⁻¹ • S.adjugate

/-- Errors of the alignment computation. `singularTransform` models the
`numpy.linalg.LinAlgError` raised by `np.linalg.inv` on a singular input
(the spec's `SingularTransformError`). -/
inductive AlignError where
  | singularTransform
deriving DecidableEq

/-- `compute_alignment` of `compute_dataset_alignment.py`.  The external
`datasets.colmap.Parser` is modelled as a black-box `provider` returning the
normalization transform of a dataset directory at a given cadence.
Returns `(align, base_transform, support_transform)` where
`align = base · support⁻¹`, or the singular-matrix error when the support
transform is not invertible. -/
def compute_alignment (provider : Dir → Int → Mat4) (train_dir subset_dir : Dir)
    (train_test_every eval_test_every : Int) :
    Except AlignError (Mat4 × Mat4 × Mat4) :=
  let train_transform := provider train_dir train_test_every
  let subset_transform := provider subset_dir eval_test_every
  if subset_transform.det = 0 then Except.error AlignError.singularTransform
  else Except.ok (train_transform * mat_inv subset_transform, train_transform, subset_transform)

/-- `main` of `compute_dataset_alignment.py`: run the computation, and only on
success write the artifact (the three matrices) to the output path.  Returns
the process exit code and the resulting filesystem. -/
def compute_main (provider : Dir → Int → Mat4) (train_dir subset_dir : Dir)
    (train_test_every eval_test_every : Int) (output : FPath)
    (fs : Fs (Mat4 × Mat4 × Mat4)) : Int × Fs (Mat4 × Mat4 × Mat4) :=
  match compute_alignment provider train_dir subset_dir train_test_every eval_test_every with
  | Except.error _ => (1, fs)
  | Except.ok t => (0, fsWrite fs output t)

theorem mat_inv_mul {S : Mat4} (h : S.det ≠ 0) : mat_inv S * S = 1 := by
  rw [mat_inv, smul_mul_assoc, Matrix.adjugate_mul, smul_smul, inv_mul_cancel₀ h, one_smul]

theorem mul_mat_inv {S : Mat4} (h : S.det ≠ 0) : S * mat_inv S = 1 := by
  rw [mat_inv, mul_smul_comm, Matrix.mul_adjugate, smul_smul, inv_mul_cancel₀ h, one_smul]

/-- Inversion of a successful run of `compute_alignment`. -/
theorem compute_alignment_ok_elim (provider : Dir → Int → Mat4)
    (train_dir subset_dir : Dir) (tte ete : Int) (A B S : Mat4)
    (h : compute_alignment provider train_dir subset_dir tte ete = Except.ok (A, B, S)) :
    S.det ≠ 0 ∧ B = provider train_dir tte ∧ S = provider subset_dir ete ∧
      A = B * mat_inv S := by
  unfold compute_alignment at h
  by_cases hdet : (provider subset_dir ete).det = 0
  · simp [hdet] at h
  · simp only [hdet, if_false, Except.ok.injEq, Prod.mk.injEq] at h
    obtain ⟨hA, hB, hS⟩ := h
    subst hB
    subst hS
    exact ⟨hdet, rfl, rfl, hA.symm⟩

/-- The provider that normalizes every dataset to the identity transform. -/
def idProvider : Dir → Int → Mat4 := fun _ _ => 1

/-- The provider that returns a singular (zero) transform for every dataset. -/
def zeroProvider : Dir → Int → Mat4 := fun _ _ => 0

/-- Claim C1: whenever the alignment computation succeeds it returns
`align = B · inverse(S)` together with the base transform `B` and the support
transform `S` obtained from the provider, and `align · S = B` (exactly, in the
rational model of the floating-point arithmetic). -/
theorem compute_alignment_correct (provider : Dir → Int → Mat4)
    (train_dir subset_dir : Dir) (tte ete : Int) (A B S : Mat4)
    (h : compute_alignment provider train_dir subset_dir tte ete = Except.ok (A, B, S)) :
    A * S = B ∧ A = B * mat_inv S ∧
      B = provider train_dir tte ∧ S = provider subset_dir ete := by
  obtain ⟨hdet, hB, hS, hA⟩ :=
    compute_alignment_ok_elim provider train_dir subset_dir tte ete A B S h
  refine ⟨?_, hA, hB, hS⟩
  rw [hA, mul_assoc, mat_inv_mul hdet, mul_one]

/-- Witness for C1 at the identity provider. -/
theorem compute_alignment_correct_witness :
    (1 : Mat4) * 1 = 1 ∧ (1 : Mat4) = 1 * mat_inv 1 ∧
      (1 : Mat4) = idProvider 0 1 ∧ (1 : Mat4) = idProvider 1 1 :=
  compute_alignment_correct idProvider 0 1 1 1 1 1 1 (by
    simp [compute_alignment, idProvider, mat_inv])

/-- Claim C2: when the provider returns the same (invertible) transform for
both datasets, the computed alignment transform is the identity matrix. -/
theorem compute_alignment_same_transform (provider : Dir → Int → Mat4)
    (train_dir subset_dir : Dir) (tte ete : Int) (A B S : Mat4)
    (hsame : provider train_dir tte = provider subset_dir ete)
    (h : compute_alignment provider train_dir subset_dir tte ete = Except.ok (A, B, S)) :
    A = 1 := by
  obtain ⟨hdet, hB, hS, hA⟩ :=
    compute_alignment_ok_elim provider train_dir subset_dir tte ete A B S h
  rw [hA, hB, hsame, ← hS, mul_mat_inv hdet]

/-- Witness for C2 at the identity provider. -/
theorem compute_alignment_same_transform_witness : (1 : Mat4) = 1 :=
  compute_alignment_same_transform idProvider 0 1 1 1 1 1 1 rfl (by
    simp [compute_alignment, idProvider, mat_inv])

/-- Claim C3: when the support transform is singular, the computation fails
with the singular-transform error, and `main` writes nothing: the filesystem
is returned unchanged (no partial artifact at the output path). -/
theorem compute_alignment_singular (provider : Dir → Int → Mat4)
    (train_dir subset_dir : Dir) (tte ete : Int) (output : FPath)
    (fs : Fs (Mat4 × Mat4 × Mat4))
    (h : (provider subset_dir ete).det = 0) :
    compute_alignment provider train_dir subset_dir tte ete =
        Except.error AlignError.singularTransform ∧
      compute_main provider train_dir subset_dir tte ete output fs = (1, fs) := by
  have hc : compute_alignment provider train_dir subset_dir tte ete =
      Except.error AlignError.singularTransform := by
    unfold compute_alignment
    simp [h]
  refine ⟨hc, ?_⟩
  unfold compute_main
  rw [hc]

/-- Witness for C3 at the zero provider. -/
theorem compute_alignment_singular_witness :
    compute_alignment zeroProvider 0 1 1 1 =
        Except.error AlignError.singularTransform ∧
      compute_main zeroProvider 0 1 1 1 [] [] = (1, []) :=
  compute_alignment_singular zeroProvider 0 1 1 1 [] [] (by simp [zeroProvider])

/-! ## Python string primitives used by `find_alignments` -/

/-- A Python string, as its list of characters. -/
abbrev PyStr := List Char

/-- The characters removed by Python's `str.strip()`. -/
def isPyWhitespace (c : Char) : Bool :=
  c = ' ' || c = '\t' || c = '\n' || c = '\r' || c = Char.ofNat 11 || c = Char.ofNat 12

/-- Python `s.strip()`: remove leading and trailing whitespace. -/
def py_strip (s : PyStr) : PyStr :=
  ((s.dropWhile isPyWhitespace).reverse.dropWhile isPyWhitespace).reverse

/-- Python `s.split(":")`. -/
def py_split_colon : PyStr → List PyStr
  | [] => [[]]
  | c :: rest =>
    let r := py_split_colon rest
    if c = ':' then [] :: r
    else
      match r with
      | [] => [[c]]
      | h :: t => (c :: h) :: t

/-- Accumulating digit scanner for `py_int`; accepts single underscores
between digits, as Python's `int` does. -/
def py_digits_go : Nat → List Char → Option Nat
  | acc, [] => some acc
  | acc, c :: rest =>
    if c.isDigit then py_digits_go (acc * 10 + (c.toNat - 48)) rest
    else if c = '_' then
      match rest with
      | [] => none
      | d :: rest2 =>
        if d.isDigit then py_digits_go (acc * 10 + (d.toNat - 48)) rest2 else none
    else none

/-- A nonempty decimal digit sequence (with Python's underscore rule). -/
def py_digits : List Char → Option Nat
  | [] => none
  | c :: rest => if c.isDigit then py_digits_go (c.toNat - 48) rest else none

/-- Python `int(s)` for base-10 literals: surrounding whitespace, an optional
sign, then digits; `none` models the `ValueError`. -/
def py_int (s : PyStr) : Option Int :=
  match py_strip s with
  | '+' :: rest => (py_digits rest).map (fun n => (n : Int))
  | '-' :: rest => (py_digits rest).map (fun n => -(n : Int))
  | t => (py_digits t).map (fun n => (n : Int))

/-! ## Artifact discovery (`find_alignments` of `regenerate_alignments.py`) -/

def testEveryKey : PyStr := ("test_every:").toList

def alignmentsName : String := "alignments"

def artifactName : String := "test_to_train.npz"

/-- `line.strip().startswith("test_every:")`. -/
def startsTestEvery (line : PyStr) : Bool :=
  testEveryKey.isPrefixOf (py_strip line)

/-- `int(line.split(":")[1].strip())` under `try/except (ValueError,
IndexError)`: `none` when the index is out of range or the literal does not
parse. -/
def tryParseTestEvery (line : PyStr) : Option Int :=
  match (py_split_colon line).get? 1 with
  | none => none
  | some part => py_int (py_strip part)

/-- The `test_every` extraction loop of `find_alignments`: starting from the
default `8`, scan the lines of `cfg.yml`; the first `test_every:` line whose
value parses sets the result and breaks; malformed matching lines are passed
over. -/
def extract_loop : Int → List PyStr → Int
  | acc, [] => acc
  | acc, l :: ls =>
    if startsTestEvery l then
      match tryParseTestEvery l with
      | some n => n
      | none => extract_loop acc ls
    else extract_loop acc ls

/-- The cadence recovered from the lines of a `cfg.yml` sidecar. -/
def extract_test_every (lines : List PyStr) : Int := extract_loop 8 lines

/-- The contribution of one line to the cadence, for the specification-side
description: the parsed value of a `test_every:` line, `none` otherwise. -/
def cadenceLine (l : PyStr) : Option Int :=
  if startsTestEvery l then tryParseTestEvery l else none

/-- The spec's description of the recovered cadence: the value of the first
well-formed `test_every` line, or the documented default `8` when the key is
missing or every matching line is malformed. -/
def cadence_spec (lines : List PyStr) : Int :=
  ((lines.filterMap cadenceLine).head?).getD 8

theorem extract_loop_eq (acc : Int) (ls : List PyStr) :
    extract_loop acc ls = ((ls.filterMap cadenceLine).head?).getD acc := by
  induction ls generalizing acc with
  | nil => rfl
  | cons l ls ih =>
    by_cases hs : startsTestEvery l
    · cases hp : tryParseTestEvery l with
      | none => simp [extract_loop, hs, hp, cadenceLine, ih]
      | some n => simp [extract_loop, hs, hp, cadenceLine]
    · simp [extract_loop, hs, cadenceLine, ih]

/-- A variant directory entry of the results tree. `hasAlignmentFile` is the
existence of `<variant>/alignments/test_to_train.npz`; `cfg` holds the lines
of `<variant>/cfg.yml` when that file exists. -/
structure VariantEntry where
  name : String
  isDir : Bool
  hasAlignmentFile : Bool
  cfg : Option (List PyStr)
deriving DecidableEq

/-- A scene directory entry; `modalityDirs` maps each existing modality
subdirectory name to the entries its `iterdir` lists. -/
structure SceneEntry where
  name : String
  isDir : Bool
  modalityDirs : List (String × List VariantEntry)
deriving DecidableEq

def lookupModality : List (String × List VariantEntry) → String → Option (List VariantEntry)
  | [], _ => none
  | (n, vs) :: rest, m => if n = m then some vs else lookupModality rest m

/-- One discovered `(alignment_path, scene, modality, variant, test_every)`
tuple. -/
structure AlignmentRecord where
  alignment_path : FPath
  scene : String
  modality : String
  variant : String
  test_every : Int
deriving DecidableEq

/-- `<results_dir>/<scene>/<modality>/<variant>/alignments/test_to_train.npz`. -/
def alignmentFilePath (results_dir : FPath) (scene modality variant : String) : FPath :=
  results_dir ++ [scene, modality, variant, alignmentsName, artifactName]

/-- The innermost loop body of `find_alignments` (over variant entries). -/
def variant_step (results_dir : FPath) (scene modality : String)
    (acc : List AlignmentRecord) (variant_dir : VariantEntry) : List AlignmentRecord :=
  if !variant_dir.isDir then acc
  else if !variant_dir.hasAlignmentFile then acc
  else
    match variant_dir.cfg with
    | none => acc
    | some lines =>
      acc ++ [⟨alignmentFilePath results_dir scene modality variant_dir.name,
              scene, modality, variant_dir.name, extract_test_every lines⟩]

/-- The modality loop body of `find_alignments`. -/
def modality_step (results_dir : FPath) (scene : String)
    (mdirs : List (String × List VariantEntry))
    (acc : List AlignmentRecord) (modality : String) : List AlignmentRecord :=
  match lookupModality mdirs modality with
  | none => acc
  | some variants => variants.foldl (variant_step results_dir scene modality) acc

/-- The scene loop body of `find_alignments`. -/
def scene_step (results_dir : FPath) (modalities : List String)
    (acc : List AlignmentRecord) (scene_dir : SceneEntry) : List AlignmentRecord :=
  if !scene_dir.isDir then acc
  else modalities.foldl (modality_step results_dir scene_dir.name scene_dir.modalityDirs) acc

/-- `find_alignments` of `regenerate_alignments.py`; the `dry_run` parameter
is accepted and unused, as in the source. -/
def find_alignments (results_dir : FPath) (tree : List SceneEntry)
    (modalities : List String) (dry_run : Bool) : List AlignmentRecord :=
  tree.foldl (scene_step results_dir modalities) []

/-- Spec-side description of discovery, one modality listing at a time:
exactly one record per variant directory that has both the artifact and the
sidecar, with the cadence of `cadence_spec`. -/
def variant_records_spec (results_dir : FPath) (scene modality : String)
    (vs : List VariantEntry) : List AlignmentRecord :=
  (vs.filter (fun v => v.isDir && v.hasAlignmentFile && v.cfg.isSome)).map
    (fun v => ⟨alignmentFilePath results_dir scene modality v.name,
               scene, modality, v.name, cadence_spec (v.cfg.getD [])⟩)

/-- Spec-side description of discovery for one scene. -/
def modality_records_spec (results_dir : FPath) (scene : String)
    (mdirs : List (String × List VariantEntry)) (modalities : List String) :
    List AlignmentRecord :=
  modalities.flatMap (fun m =>
    match lookupModality mdirs m with
    | none => []
    | some vs => variant_records_spec results_dir scene m vs)

/-- Spec-side description of the whole discovery pass. -/
def discovery_spec (results_dir : FPath) (tree : List SceneEntry)
    (modalities : List String) : List AlignmentRecord :=
  tree.flatMap (fun s =>
    if s.isDir then modality_records_spec results_dir s.name s.modalityDirs modalities
    else [])

theorem variant_foldl_eq (results_dir : FPath) (scene modality : String)
    (vs : List VariantEntry) : ∀ acc : List AlignmentRecord,
    vs.foldl (variant_step results_dir scene modality) acc =
      acc ++ variant_records_spec results_dir scene modality vs := by
  induction vs with
  | nil => intro acc; simp [variant_records_spec]
  | cons v vs ih =>
    intro acc
    rw [List.foldl_cons, ih]
    by_cases hd : v.isDir
    · by_cases ha : v.hasAlignmentFile
      · cases hc : v.cfg with
        | none => simp [variant_step, variant_records_spec, hd, ha, hc]
        | some lines =>
          simp [variant_step, variant_records_spec, hd, ha, hc,
            extract_test_every, extract_loop_eq, cadence_spec]
      · simp [variant_step, variant_records_spec, hd, ha]
    · simp [variant_step, variant_records_spec, hd]

theorem modality_foldl_eq (results_dir : FPath) (scene : String)
    (mdirs : List (String × List VariantEntry)) (ms : List String) :
    ∀ acc : List AlignmentRecord,
    ms.foldl (modality_step results_dir scene mdirs) acc =
      acc ++ modality_records_spec results_dir scene mdirs ms := by
  induction ms with
  | nil => intro acc; simp [modality_records_spec]
  | cons m ms ih =>
    intro acc
    rw [List.foldl_cons, ih]
    cases hm : lookupModality mdirs m with
    | none => simp [modality_step, modality_records_spec, hm]
    | some vs =>
      simp [modality_step, modality_records_spec, hm, variant_foldl_eq]

theorem scene_foldl_eq (results_dir : FPath) (modalities : List String)
    (tree : List SceneEntry) : ∀ acc : List AlignmentRecord,
    tree.foldl (scene_step results_dir modalities) acc =
      acc ++ discovery_spec results_dir tree modalities := by
  induction tree with
  | nil => intro acc; simp [discovery_spec]
  | cons s tree ih =>
    intro acc
    rw [List.foldl_cons, ih]
    by_cases hd : s.isDir
    · simp [scene_step, discovery_spec, hd, modality_foldl_eq]
    · simp [scene_step, discovery_spec, hd]

/-! ## Regeneration (`regenerate_alignment` and `main` of
`regenerate_alignments.py`) -/

/-- Python `PurePath.with_suffix` on a file name: drop the existing suffix
(the part from the last dot, when the name has one that is neither leading
nor trailing) and append `suffix`. -/
def py_with_suffix (name : List Char) (suffix : List Char) : List Char :=
  let rev := name.reverse
  let ext := rev.takeWhile (fun c => c != '.')
  match rev.dropWhile (fun c => c != '.') with
  | [] => name ++ suffix
  | _ :: rest =>
    if ext.isEmpty || rest.isEmpty then name ++ suffix
    else rest.reverse ++ suffix

/-- `alignment_path.with_suffix(".npz.old")`: the sibling backup path. -/
def backup_path (p : FPath) : FPath :=
  match p.reverse with
  | [] => []
  | name :: rest =>
    (String.mk (py_with_suffix name.toList ((".npz.old").toList)) :: rest).reverse

def trainName : String := "train"

def testName : String := "test"

/-- `dataset_dir / scene / modality / "train"`. -/
def train_dir_of (dataset_dir : FPath) (scene modality : String) : FPath :=
  dataset_dir ++ [scene, modality, trainName]

/-- `dataset_dir / scene / modality / "test"`. -/
def test_dir_of (dataset_dir : FPath) (scene modality : String) : FPath :=
  dataset_dir ++ [scene, modality, testName]

/-- The argument vector passed to `compute_dataset_alignment.py` by
`regenerate_alignment`. -/
structure ComputeCall where
  script : FPath
  train_dir : FPath
  subset_dir : FPath
  train_test_every : Int
  eval_test_every : Int
  output : FPath
deriving DecidableEq

/-- `regenerate_alignment` of `regenerate_alignments.py`, over the filesystem
model. `existing_dirs` lists the directories present on disk; `compute_ok` is
the success of the `compute_dataset_alignment.py` subprocess and
`new_content` the artifact it writes on success (the subprocess writes the
output file only after its computation succeeds, and writes nothing on
failure). Returns the success flag, the updated filesystem, and the
subprocess call issued (`none` when no subprocess ran). -/
def regenerate_alignment {β : Type} (scene modality : String)
    (test_every eval_test_every : Int) (alignment_path : FPath)
    (dataset_dir : FPath) (compute_script : FPath) (existing_dirs : List FPath)
    (backup dry_run : Bool) (compute_ok : Bool) (new_content : β) (fs : Fs β) :
    Bool × Fs β × Option ComputeCall :=
  let train_dir := train_dir_of dataset_dir scene modality
  let test_dir := test_dir_of dataset_dir scene modality
  if train_dir ∉ existing_dirs then (false, fs, none)
  else if test_dir ∉ existing_dirs then (false, fs, none)
  else
    let fs1 := if backup && (fsLookup fs alignment_path).isSome && !dry_run
               then fsCopy fs alignment_path (backup_path alignment_path)
               else fs
    let cmd : ComputeCall :=
      ⟨compute_script, train_dir, test_dir, test_every, eval_test_every, alignment_path⟩
    if dry_run then (true, fs1, none)
    else if compute_ok then (true, fsWrite fs1 alignment_path new_content, some cmd)
    else (false, fs1, some cmd)

/-- Whether a record's regeneration reports success: both dataset directories
exist, and the run is a dry run or the subprocess succeeds. -/
def record_passes (dataset_dir : FPath) (existing_dirs : List FPath)
    (dry_run : Bool) (compute_ok : Bool) (r : AlignmentRecord) : Bool :=
  decide (train_dir_of dataset_dir r.scene r.modality ∈ existing_dirs) &&
  decide (test_dir_of dataset_dir r.scene r.modality ∈ existing_dirs) &&
  (dry_run || compute_ok)

theorem regenerate_alignment_fst {β : Type} (scene modality : String)
    (test_every eval_test_every : Int) (alignment_path : FPath)
    (dataset_dir compute_script : FPath) (existing_dirs : List FPath)
    (backup dry_run compute_ok : Bool) (new_content : β) (fs : Fs β) :
    (regenerate_alignment scene modality test_every eval_test_every alignment_path
        dataset_dir compute_script existing_dirs backup dry_run compute_ok
        new_content fs).1 =
      (decide (train_dir_of dataset_dir scene modality ∈ existing_dirs) &&
       decide (test_dir_of dataset_dir scene modality ∈ existing_dirs) &&
       (dry_run || compute_ok)) := by
  unfold regenerate_alignment
  by_cases h1 : train_dir_of dataset_dir scene modality ∈ existing_dirs
  · by_cases h2 : test_dir_of dataset_dir scene modality ∈ existing_dirs
    · cases dry_run <;> cases compute_ok <;> simp [h1, h2]
    · simp [h1, h2]
  · simp [h1]

theorem regenerate_alignment_call {β : Type} (scene modality : String)
    (test_every eval_test_every : Int) (alignment_path : FPath)
    (dataset_dir compute_script : FPath) (existing_dirs : List FPath)
    (backup dry_run compute_ok : Bool) (new_content : β) (fs : Fs β) :
    (regenerate_alignment scene modality test_every eval_test_every alignment_path
        dataset_dir compute_script existing_dirs backup dry_run compute_ok
        new_content fs).2.2 =
      (if (train_dir_of dataset_dir scene modality ∈ existing_dirs ∧
           test_dir_of dataset_dir scene modality ∈ existing_dirs) ∧ dry_run = false
       then some ⟨compute_script, train_dir_of dataset_dir scene modality,
                  test_dir_of dataset_dir scene modality, test_every, eval_test_every,
                  alignment_path⟩
       else none) := by
  unfold regenerate_alignment
  by_cases h1 : train_dir_of dataset_dir scene modality ∈ existing_dirs
  · by_cases h2 : test_dir_of dataset_dir scene modality ∈ existing_dirs
    · cases dry_run <;> cases compute_ok <;> simp [h1, h2]
    · simp [h1, h2]
  · simp [h1]

/-- The per-record loop of `main`: run `regenerate_alignment` on each record,
threading the filesystem and the success/failure counters, and collect the
subprocess calls issued. `outcome` gives, per record, the subprocess success
and the artifact content it would write. -/
def run_records {β : Type} (dataset_dir compute_script : FPath)
    (eval_test_every : Int) (existing_dirs : List FPath) (backup dry_run : Bool)
    (outcome : AlignmentRecord → Bool × β) :
    List AlignmentRecord → Fs β → Nat → Nat → (Nat × Nat) × Fs β × List ComputeCall
  | [], fs, success_count, fail_count => ((success_count, fail_count), fs, [])
  | r :: rs, fs, success_count, fail_count =>
    let oc := outcome r
    let res := regenerate_alignment r.scene r.modality r.test_every eval_test_every
      r.alignment_path dataset_dir compute_script existing_dirs backup dry_run oc.1 oc.2 fs
    let rest := run_records dataset_dir compute_script eval_test_every existing_dirs
      backup dry_run outcome rs res.2.1
      (if res.1 then success_count + 1 else success_count)
      (if res.1 then fail_count else fail_count + 1)
    (rest.1, rest.2.1, (res.2.2).toList ++ rest.2.2)

/-- Python truthiness of `args.scenes` (`None` or a possibly-empty list)
applied to the discovered records: `if args.scenes: filter`. -/
def scenes_filter (scenes : Option (List String)) (alignments : List AlignmentRecord) :
    List AlignmentRecord :=
  match scenes with
  | none => alignments
  | some l => if l.isEmpty then alignments else alignments.filter (fun r => l.contains r.scene)

/-- `main` of `regenerate_alignments.py`: resolve the compute script, discover
records, filter by scenes, regenerate each record, and exit 0 iff no record
failed (0 immediately when no record is found). Returns the exit code, the
`(success_count, fail_count)` summary and the final filesystem. -/
def regen_main {β : Type} (tree : List SceneEntry) (modalities : List String)
    (scenes : Option (List String)) (results_dir dataset_dir : FPath)
    (eval_test_every : Int) (compute_script : FPath) (script_exists : Bool)
    (existing_dirs : List FPath) (no_backup dry_run : Bool)
    (outcome : AlignmentRecord → Bool × β) (fs : Fs β) :
    Int × (Nat × Nat) × Fs β :=
  if !script_exists then (1, (0, 0), fs)
  else
    let alignments := scenes_filter scenes (find_alignments results_dir tree modalities dry_run)
    if alignments.isEmpty then (0, (0, 0), fs)
    else
      let res := run_records dataset_dir compute_script eval_test_every existing_dirs
        (!no_backup) dry_run outcome alignments fs 0 0
      ((if res.1.2 = 0 then 0 else 1), res.1, res.2.1)

/-- Claim C4: discovery returns exactly one record per variant directory that
contains both the fixed artifact path and a sidecar file; variants missing
either are skipped; and each record's cadence is the value parsed from the
sidecar's first well-formed `test_every` line, or the default `8` when the
key is missing or malformed — stated as equality of `find_alignments` with
the spec-side description `discovery_spec`. -/
theorem find_alignments_eq_discovery_spec (results_dir : FPath)
    (tree : List SceneEntry) (modalities : List String) (dry_run : Bool) :
    find_alignments results_dir tree modalities dry_run =
      discovery_spec results_dir tree modalities := by
  rw [find_alignments, scene_foldl_eq]
  simp

theorem countP_not_add {α : Type} (p : α → Bool) (l : List α) :
    l.countP p + l.countP (fun a => !(p a)) = l.length := by
  induction l with
  | nil => simp
  | cons a l ih => cases h : p a <;> simp [List.countP_cons, h] <;> omega

theorem run_records_counts_aux {β : Type} (dataset_dir compute_script : FPath)
    (eval_test_every : Int) (existing_dirs : List FPath) (backup dry_run : Bool)
    (outcome : AlignmentRecord → Bool × β) :
    ∀ (records : List AlignmentRecord) (fs : Fs β) (s f : Nat),
    (run_records dataset_dir compute_script eval_test_every existing_dirs backup dry_run
        outcome records fs s f).1 =
      (s + records.countP
            (fun r => record_passes dataset_dir existing_dirs dry_run (outcome r).1 r),
       f + records.countP
            (fun r => !(record_passes dataset_dir existing_dirs dry_run (outcome r).1 r))) := by
  intro records
  induction records with
  | nil => intro fs s f; simp [run_records]
  | cons r rs ih =>
    intro fs s f
    have hfst := regenerate_alignment_fst r.scene r.modality r.test_every eval_test_every
      r.alignment_path dataset_dir compute_script existing_dirs backup dry_run
      (outcome r).1 (outcome r).2 fs
    have hB : (decide (train_dir_of dataset_dir r.scene r.modality ∈ existing_dirs) &&
        decide (test_dir_of dataset_dir r.scene r.modality ∈ existing_dirs) &&
        (dry_run || (outcome r).1)) =
        record_passes dataset_dir existing_dirs dry_run (outcome r).1 r := rfl
    rw [hB] at hfst
    simp only [run_records, hfst, ih, List.countP_cons]
    cases hp : record_passes dataset_dir existing_dirs dry_run (outcome r).1 r <;>
      simp [hp, Prod.ext_iff] <;> omega

/-- Claim C5: the batch loop attempts every record; a per-record precondition
or subprocess failure makes only that record count as a failure, and the
summary counts exactly the passing and the failing records (which together
exhaust the batch). -/
theorem run_records_summary {β : Type} (dataset_dir compute_script : FPath)
    (eval_test_every : Int) (existing_dirs : List FPath) (backup dry_run : Bool)
    (outcome : AlignmentRecord → Bool × β) (records : List AlignmentRecord) (fs : Fs β) :
    (run_records dataset_dir compute_script eval_test_every existing_dirs backup dry_run
        outcome records fs 0 0).1 =
      (records.countP
          (fun r => record_passes dataset_dir existing_dirs dry_run (outcome r).1 r),
       records.countP
          (fun r => !(record_passes dataset_dir existing_dirs dry_run (outcome r).1 r))) ∧
    (run_records dataset_dir compute_script eval_test_every existing_dirs backup dry_run
        outcome records fs 0 0).1.1 +
      (run_records dataset_dir compute_script eval_test_every existing_dirs backup dry_run
        outcome records fs 0 0).1.2 = records.length := by
  have h := run_records_counts_aux dataset_dir compute_script eval_test_every existing_dirs
    backup dry_run outcome records fs 0 0
  simp only [Nat.zero_add] at h
  refine ⟨h, ?_⟩
  rw [h]
  exact countP_not_add _ records

/-- Claim C9: the batch loop invokes the alignment computation exactly once
per record that passes its precondition checks on a non-dry run, always with
the record's own recovered cadence as the train cadence and the single
caller-supplied `eval_test_every` as the test cadence, uniformly across the
run. -/
theorem run_records_calls {β : Type} (dataset_dir compute_script : FPath)
    (eval_test_every : Int) (existing_dirs : List FPath) (backup dry_run : Bool)
    (outcome : AlignmentRecord → Bool × β) :
    ∀ (records : List AlignmentRecord) (fs : Fs β) (s f : Nat),
    (run_records dataset_dir compute_script eval_test_every existing_dirs backup dry_run
        outcome records fs s f).2.2 =
      records.filterMap (fun r =>
        if (train_dir_of dataset_dir r.scene r.modality ∈ existing_dirs ∧
            test_dir_of dataset_dir r.scene r.modality ∈ existing_dirs) ∧ dry_run = false
        then some ⟨compute_script, train_dir_of dataset_dir r.scene r.modality,
                   test_dir_of dataset_dir r.scene r.modality, r.test_every,
                   eval_test_every, r.alignment_path⟩
        else none) := by
  intro records
  induction records with
  | nil => intro fs s f; simp [run_records]
  | cons r rs ih =>
    intro fs s f
    have hcall := regenerate_alignment_call r.scene r.modality r.test_every eval_test_every
      r.alignment_path dataset_dir compute_script existing_dirs backup dry_run
      (outcome r).1 (outcome r).2 fs
    simp only [run_records, hcall, ih, List.filterMap_cons]
    by_cases hc : (train_dir_of dataset_dir r.scene r.modality ∈ existing_dirs ∧
        test_dir_of dataset_dir r.scene r.modality ∈ existing_dirs) ∧ dry_run = false
    · simp [hc]
    · simp [hc]

/-! Concrete sample inputs used by the witnesses below. -/

def sampleScene : String := "scene0"

def sampleModality : String := "iphone"

def sampleDatasetDir : FPath := ["data"]

def sampleScript : FPath := ["examples", "compute_dataset_alignment.py"]

def samplePath : FPath := ["results", "scene0", "iphone", "v1", "alignments", "test_to_train.npz"]

def sampleDirs : List FPath :=
  [train_dir_of sampleDatasetDir sampleScene sampleModality,
   test_dir_of sampleDatasetDir sampleScene sampleModality]

def sampleDirsTestOnly : List FPath :=
  [test_dir_of sampleDatasetDir sampleScene sampleModality]

def sampleFs : Fs Nat := [(samplePath, 0)]

/-- Claim C6: with backup enabled on a non-dry run, an existing artifact and
passing preconditions, the artifact's prior contents are copied to the `.old`
sibling before the recomputed artifact is written: after the record is
processed the backup holds the pre-run contents and the artifact holds the
newly computed result. -/
theorem regenerate_alignment_backup {β : Type} (scene modality : String)
    (test_every eval_test_every : Int) (alignment_path : FPath)
    (dataset_dir compute_script : FPath) (existing_dirs : List FPath)
    (compute_ok : Bool) (new_content old_content : β) (fs : Fs β)
    (htr : train_dir_of dataset_dir scene modality ∈ existing_dirs)
    (hte : test_dir_of dataset_dir scene modality ∈ existing_dirs)
    (hok : compute_ok = true)
    (hold : fsLookup fs alignment_path = some old_content)
    (hne : backup_path alignment_path ≠ alignment_path) :
    (regenerate_alignment scene modality test_every eval_test_every alignment_path
        dataset_dir compute_script existing_dirs true false compute_ok
        new_content fs).1 = true ∧
    fsLookup (regenerate_alignment scene modality test_every eval_test_every alignment_path
        dataset_dir compute_script existing_dirs true false compute_ok
        new_content fs).2.1 (backup_path alignment_path) = some old_content ∧
    fsLookup (regenerate_alignment scene modality test_every eval_test_every alignment_path
        dataset_dir compute_script existing_dirs true false compute_ok
        new_content fs).2.1 alignment_path = some new_content := by
  subst hok
  have h1 : ¬ train_dir_of dataset_dir scene modality ∉ existing_dirs := not_not_intro htr
  have h2 : ¬ test_dir_of dataset_dir scene modality ∉ existing_dirs := not_not_intro hte
  unfold regenerate_alignment
  rw [if_neg h1, if_neg h2]
  simp only [fsCopy, hold, Option.isSome_some, Bool.and_true, Bool.true_and,
    Bool.not_false, Bool.and_self, Bool.false_eq_true, if_true, if_false,
    ite_true, ite_false]
  refine ⟨trivial, ?_, ?_⟩
  · rw [fsLookup_fsWrite_ne _ alignment_path (backup_path alignment_path) new_content hne,
      fsLookup_fsWrite_self]
  · rw [fsLookup_fsWrite_self]

/-- Witness for C6 at a concrete one-file filesystem. -/
theorem regenerate_alignment_backup_witness :
    (regenerate_alignment (β := Nat) sampleScene sampleModality 8 1 samplePath
        sampleDatasetDir sampleScript sampleDirs true false true 1 sampleFs).1 = true ∧
    fsLookup (regenerate_alignment (β := Nat) sampleScene sampleModality 8 1 samplePath
        sampleDatasetDir sampleScript sampleDirs true false true 1 sampleFs).2.1
      (backup_path samplePath) = some 0 ∧
    fsLookup (regenerate_alignment (β := Nat) sampleScene sampleModality 8 1 samplePath
        sampleDatasetDir sampleScript sampleDirs true false true 1 sampleFs).2.1
      samplePath = some 1 :=
  regenerate_alignment_backup sampleScene sampleModality 8 1 samplePath
    sampleDatasetDir sampleScript sampleDirs true 1 0 sampleFs
    (by decide) (by decide) rfl (by decide) (by decide)

/-- Claim C7 (amended): under `dry_run` no filesystem write occurs and no
subprocess is invoked for any record — the filesystem is returned unchanged —
and the record is counted as a (simulated) success exactly when its train and
test directories exist; a record failing those precondition checks is counted
as a failure, still without any write. -/
theorem regenerate_alignment_dry_run {β : Type} (scene modality : String)
    (test_every eval_test_every : Int) (alignment_path : FPath)
    (dataset_dir compute_script : FPath) (existing_dirs : List FPath)
    (backup compute_ok dry_run : Bool) (new_content : β) (fs : Fs β)
    (hd : dry_run = true) :
    (regenerate_alignment scene modality test_every eval_test_every alignment_path
        dataset_dir compute_script existing_dirs backup dry_run compute_ok
        new_content fs).2.1 = fs ∧
    (regenerate_alignment scene modality test_every eval_test_every alignment_path
        dataset_dir compute_script existing_dirs backup dry_run compute_ok
        new_content fs).2.2 = none ∧
    ((regenerate_alignment scene modality test_every eval_test_every alignment_path
        dataset_dir compute_script existing_dirs backup dry_run compute_ok
        new_content fs).1 = true ↔
      (train_dir_of dataset_dir scene modality ∈ existing_dirs ∧
       test_dir_of dataset_dir scene modality ∈ existing_dirs)) := by
  subst hd
  unfold regenerate_alignment
  by_cases h1 : train_dir_of dataset_dir scene modality ∈ existing_dirs
  · by_cases h2 : test_dir_of dataset_dir scene modality ∈ existing_dirs
    · simp [h1, h2]
    · simp [h1, h2]
  · simp [h1]

/-- Witness for the amended C7 on a concrete record with both directories
present. -/
theorem regenerate_alignment_dry_run_witness :
    (regenerate_alignment (β := Nat) sampleScene sampleModality 8 1 samplePath
        sampleDatasetDir sampleScript sampleDirs true true true 1 sampleFs).2.1 = sampleFs ∧
    (regenerate_alignment (β := Nat) sampleScene sampleModality 8 1 samplePath
        sampleDatasetDir sampleScript sampleDirs true true true 1 sampleFs).2.2 = none ∧
    ((regenerate_alignment (β := Nat) sampleScene sampleModality 8 1 samplePath
        sampleDatasetDir sampleScript sampleDirs true true true 1 sampleFs).1 = true ↔
      (train_dir_of sampleDatasetDir sampleScene sampleModality ∈ sampleDirs ∧
       test_dir_of sampleDatasetDir sampleScene sampleModality ∈ sampleDirs)) :=
  regenerate_alignment_dry_run sampleScene sampleModality 8 1 samplePath
    sampleDatasetDir sampleScript sampleDirs true true true 1 sampleFs rfl

/-- Counterexample to Claim C7 as stated: under `dry_run = true` a record
whose train directory is missing is counted as a failure, not as the
simulated success the claim asserts for every record. -/
theorem dry_run_success_counterexample :
    (regenerate_alignment (β := Nat) sampleScene sampleModality 8 1 samplePath
        sampleDatasetDir sampleScript [] true true true 1 sampleFs).1 = false := by
  decide

/-- Claim C10: a record whose train or test directory is missing fails before
any filesystem effect: the filesystem is returned unchanged (no backup copy
and no artifact write, even with backup enabled and an existing artifact) and
no subprocess is invoked. -/
theorem regenerate_alignment_precondition_failure {β : Type} (scene modality : String)
    (test_every eval_test_every : Int) (alignment_path : FPath)
    (dataset_dir compute_script : FPath) (existing_dirs : List FPath)
    (backup dry_run compute_ok : Bool) (new_content : β) (fs : Fs β)
    (h : train_dir_of dataset_dir scene modality ∉ existing_dirs ∨
         test_dir_of dataset_dir scene modality ∉ existing_dirs) :
    regenerate_alignment scene modality test_every eval_test_every alignment_path
        dataset_dir compute_script existing_dirs backup dry_run compute_ok
        new_content fs = (false, fs, none) := by
  unfold regenerate_alignment
  rcases h with h | h
  · simp [h]
  · by_cases h1 : train_dir_of dataset_dir scene modality ∈ existing_dirs
    · simp [h1, h]
    · simp [h1]

/-- Witness for C10: the train directory is absent while the test directory
exists, backup is enabled and the artifact exists. -/
theorem regenerate_alignment_precondition_failure_witness :
    regenerate_alignment (β := Nat) sampleScene sampleModality 8 1 samplePath
        sampleDatasetDir sampleScript sampleDirsTestOnly true false true 1 sampleFs =
      (false, sampleFs, none) :=
  regenerate_alignment_precondition_failure sampleScene sampleModality 8 1 samplePath
    sampleDatasetDir sampleScript sampleDirsTestOnly true false true 1 sampleFs
    (Or.inl (by decide))

/-- Claim C8: with the compute script present, a regeneration run exits 0 iff
zero records failed; in particular a run that discovers no records exits 0
(its summary counts zero failures). -/
theorem regen_main_exit_iff {β : Type} (tree : List SceneEntry) (modalities : List String)
    (scenes : Option (List String)) (results_dir dataset_dir : FPath)
    (eval_test_every : Int) (compute_script : FPath) (script_exists : Bool)
    (existing_dirs : List FPath) (no_backup dry_run : Bool)
    (outcome : AlignmentRecord → Bool × β) (fs : Fs β)
    (hs : script_exists = true) :
    ((regen_main tree modalities scenes results_dir dataset_dir eval_test_every
        compute_script script_exists existing_dirs no_backup dry_run outcome fs).1 = 0 ↔
     (regen_main tree modalities scenes results_dir dataset_dir eval_test_every
        compute_script script_exists existing_dirs no_backup dry_run outcome fs).2.1.2 = 0) := by
  subst hs
  unfold regen_main
  simp only [Bool.not_true, Bool.false_eq_true, if_false]
  cases he : (scenes_filter scenes (find_alignments results_dir tree modalities dry_run)).isEmpty
  · simp only [he, Bool.false_eq_true, if_false]
    by_cases hf : (run_records dataset_dir compute_script eval_test_every existing_dirs
        (!no_backup) dry_run outcome
        (scenes_filter scenes (find_alignments results_dir tree modalities dry_run))
        fs 0 0).1.2 = 0
    · simp [hf]
    · simp [hf]
  · simp [he]

/-- Witness for C8 on a run over an empty results tree. -/
theorem regen_main_exit_iff_witness :
    ((regen_main (β := Nat) [] [sampleModality] none ["results"] sampleDatasetDir 1
        sampleScript true [] false false (fun _ => (true, 0)) []).1 = 0 ↔
     (regen_main (β := Nat) [] [sampleModality] none ["results"] sampleDatasetDir 1
        sampleScript true [] false false (fun _ => (true, 0)) []).2.1.2 = 0) :=
  regen_main_exit_iff [] [sampleModality] none ["results"] sampleDatasetDir 1
    sampleScript true [] false false (fun _ => (true, 0)) [] rfl

end Difix3D
